import Mathlib

/-!
Verification development for the fitscroll repository.

The development shallowly embeds the feed-generation pipeline
(`runPipeline` in app/feed.tsx), the Gemini image client
(`generateWithImages`, `generateTryOn` environment selection in
src/storage.ts) and the Pinterest bridge client (`searchPinterest`).

Modelling conventions:
- JavaScript strings become `String`; `x.toLowerCase()` becomes
  `String.toLower`, `x.includes(y)` becomes `strIncludes`.
- JavaScript `a || b` on strings (falsy on the empty string) becomes
  `if a = "" then b else a`; the falsy test `!x` on an optional string
  tests for `none` or the empty string.
- Network effects are oracles passed as explicit arguments: the list of
  outfits the bridge would return, and per-attempt outcomes for the
  Gemini endpoint.  `Date.now()` and `Math.random()` derived metadata
  (post id suffix, like count, comment count, timestamp) come from a
  `PostMeta` oracle indexed by candidate position.
- JavaScript numbers used for the progress side channel are modelled as
  rationals (`ℚ`).
- React state setters are modelled as traces recorded in the result
  structure: `progressEvents` is the ordered list of values passed to
  `setProgress`, `fetchArgs` records the single `searchPinterest` call
  (or `none` when it is not reached), `genArgs` records the arguments
  of each `generateTryOn` call in order.
-/

namespace Fitscroll

/-- From src/types (unnamed part_001): a tagged product. -/
structure Product where
  id : String
  name : String
  brand : String
  priceLabel : String
  url : Option String
deriving DecidableEq, Repr

/-- From src/types: a feed comment. -/
structure FeedComment where
  id : String
  text : String
  author : String
  createdAt : String
deriving DecidableEq, Repr

/-- From src/pinterest (unnamed part_000): one outfit entry from the bridge. -/
structure PinterestOutfit where
  imageUrl : String
  sourceUrl : String
  captionHint : String
  products : List Product
deriving DecidableEq, Repr

/-- From src/types: the persisted user profile.  The gender enum is
modelled as an optional string. -/
structure UserProfile where
  photoUri : Option String
  gender : Option String
  keywords : List String
  brands : List String
  styles : List String
  onboarded : Bool
deriving DecidableEq, Repr

/-- From src/types: one feed entry (`OutfitPost`). -/
structure OutfitPost where
  id : String
  images : List String
  captionHint : String
  products : List Product
  liked : Bool
  likeCount : Nat
  commentCount : Nat
  comments : List FeedComment
  createdAt : String
deriving DecidableEq, Repr

/-- From src/config.ts: how many Pinterest inspiration images to fetch
per generation. -/
def PINTEREST_FETCH_LIMIT : Nat := 10

/-- Substring test on character lists: JavaScript `hay.includes(needle)`. -/
def containsSub (hay needle : List Char) : Bool :=
  match hay with
  | [] => needle.isEmpty
  | _ :: t => needle.isPrefixOf hay || containsSub t needle

/-- JavaScript `hay.includes(needle)` on strings. -/
def strIncludes (hay needle : String) : Bool :=
  containsSub hay.toList needle.toList

/-- JavaScript `s.toLowerCase()`, written over the character list so that
it evaluates inside the kernel (the library `String.toLower` is
equivalent but defined through a non-reducing iterator). -/
def lowerString (s : String) : String :=
  ⟨s.data.map Char.toLower⟩

/-- JavaScript `s.trim()`: strip whitespace from both ends. -/
def jsTrim (s : String) : String :=
  ⟨((s.data.dropWhile Char.isWhitespace).reverse.dropWhile Char.isWhitespace).reverse⟩

/-- feed.tsx lines 531 and 547-549: the style passed to `generateTryOn`
for one candidate.  `profile.styles.find(s => caption.toLowerCase()
.includes(s.toLowerCase())) ?? primaryStyle` where `primaryStyle` is the
first style or null. -/
def pickOutfitStyle (styles : List String) (captionHint : String) : Option String :=
  match styles.find? (fun s => strIncludes (lowerString captionHint) (lowerString s)) with
  | some s => some s
  | none => styles.head?

/-- feed.tsx line 544 and 569/583/598: `outfit.sourceUrl || outfit.imageUrl`,
the source-or-primary reference locator for a candidate. -/
def refUrl (o : PinterestOutfit) : String :=
  if o.sourceUrl = "" then o.imageUrl else o.sourceUrl

/-- Outcome of one `generateTryOn` call as seen by the pipeline loop:
a generated local uri, a null return, or a thrown exception. -/
inductive GenOutcome where
  | ok (uri : String)
  | failed
  | threw
deriving DecidableEq, Repr

/-- Abstraction of the `Date.now()` and `Math.random()` derived fields of
a produced post. -/
structure PostMeta where
  idSuffix : String
  likeCount : Nat
  commentCount : Nat
  createdAt : String
deriving DecidableEq, Repr

/-- The argument tuple of one `generateTryOn` call (feed.tsx lines 553-559). -/
structure GenArgs where
  userPhotoUri : String
  outfitImageUrl : String
  outfitDescription : String
  gender : Option String
  style : Option String
deriving DecidableEq, Repr

/-- feed.tsx lines 553-559: the arguments passed to `generateTryOn` for
one candidate. -/
def mkGenArgs (profile : UserProfile) (o : PinterestOutfit) : GenArgs :=
  { userPhotoUri := profile.photoUri.getD ""
    outfitImageUrl := refUrl o
    outfitDescription := o.captionHint
    gender := profile.gender
    style := pickOutfitStyle profile.styles o.captionHint }

/-- feed.tsx lines 561-607: the post pushed for one candidate.  On a
generated uri the images are `[generated, sourceOrPrimary]`; on a null
return or an exception only `[sourceOrPrimary]`.  The id prefix keeps the
gen/pin distinction of the source; the random suffix, like count, comment
count and timestamp come from the `PostMeta` oracle. -/
def mkPost (o : PinterestOutfit) (g : GenOutcome) (m : PostMeta) : OutfitPost :=
  match g with
  | .ok uri =>
      { id := "gen-" ++ m.idSuffix
        images := [uri, refUrl o]
        captionHint := o.captionHint
        products := o.products
        liked := false
        likeCount := m.likeCount
        commentCount := m.commentCount
        comments := []
        createdAt := m.createdAt }
  | .failed =>
      { id := "pin-" ++ m.idSuffix
        images := [refUrl o]
        captionHint := o.captionHint
        products := o.products
        liked := false
        likeCount := m.likeCount
        commentCount := m.commentCount
        comments := []
        createdAt := m.createdAt }
  | .threw =>
      { id := "pin-" ++ m.idSuffix
        images := [refUrl o]
        captionHint := o.captionHint
        products := o.products
        liked := false
        likeCount := m.likeCount
        commentCount := m.commentCount
        comments := []
        createdAt := m.createdAt }

/-- feed.tsx lines 537-612: the `for (const outfit of pinterestOutfits)`
loop, accumulating one post per candidate in order.  `i` is the running
`done` counter used to index the oracles. -/
def runPosts (gen : Nat → GenOutcome) (meta : Nat → PostMeta) :
    Nat → List PinterestOutfit → List OutfitPost
  | _, [] => []
  | i, o :: rest => mkPost o (gen i) (meta i) :: runPosts gen meta (i + 1) rest

/-- feed.tsx line 611: the progress value reported after completing
candidate `k` (0-based) out of `n`: `0.15 + (done / n) * 0.8` with
`done = k + 1`. -/
def candidateProgress (n k : Nat) : ℚ :=
  15 / 100 + (((k : ℚ) + 1) / (n : ℚ)) * (80 / 100)

/-- feed.tsx line 500: the configuration-error message shown when the
profile has no photo. -/
def noPhotoMsg : String := "No photo found. Please go back and upload one."

/-- feed.tsx lines 515-519: the discovery-exhaustion message shown when
the bridge returns zero outfits. -/
def noOutfitsMsg : String :=
  "No outfits found.\n\n" ++
  "The bridge server may still be scraping, or pinscrape returned no results.\n" ++
  "Check the Python server logs and try again."

/-- feed.tsx line 631: the catch-all message of the outer try/catch. -/
def pipelineErrorMsg : String :=
  "Something went wrong while generating your feed. Please try again."

/-- feed.tsx line 499: JavaScript truthiness of `profile.photoUri`
(false for null/undefined and for the empty string). -/
def photoPresent (p : UserProfile) : Bool :=
  match p.photoUri with
  | some s => s != ""
  | none => false

/-- feed.tsx lines 508-510: the keywords sent to the bridge. -/
def searchKeywords (p : UserProfile) : List String :=
  if p.keywords.isEmpty then ["fashion outfit inspiration"] else p.keywords

/-- Observable outcome of one `runPipeline` invocation. -/
structure RunOutcome where
  fetchArgs : Option (List String × Nat × Bool)
  genArgs : List GenArgs
  posts : List OutfitPost
  error : Option String
  progressEvents : List ℚ
deriving DecidableEq, Repr

/-- feed.tsx lines 494-633: the generation pipeline.  `bridgeOutfits` is
the list `searchPinterest` would return, `gen` and `meta` are the
per-candidate oracles described in the module docstring. -/
def runPipeline (profile : UserProfile) (bridgeOutfits : List PinterestOutfit)
    (gen : Nat → GenOutcome) (meta : Nat → PostMeta) : RunOutcome :=
  if photoPresent profile then
    if bridgeOutfits.isEmpty then
      { fetchArgs := some (searchKeywords profile, PINTEREST_FETCH_LIMIT, true)
        genArgs := []
        posts := []
        error := some noOutfitsMsg
        progressEvents := [5 / 100] }
    else
      { fetchArgs := some (searchKeywords profile, PINTEREST_FETCH_LIMIT, true)
        genArgs := bridgeOutfits.map (mkGenArgs profile)
        posts := runPosts gen meta 0 bridgeOutfits
        error := none
        progressEvents :=
          [5 / 100, 15 / 100] ++
            (List.range bridgeOutfits.length).map
              (candidateProgress bridgeOutfits.length) ++ [1] }
  else
    { fetchArgs := none
      genArgs := []
      posts := []
      error := some noPhotoMsg
      progressEvents := [] }

/-! ### Gemini client (src/storage.ts, gemini document) -/

/-- storage.ts line 111: retry budget of `generateWithImages`. -/
def MAX_RETRIES : Nat := 2

/-- storage.ts line 112: fixed backoff unit in milliseconds. -/
def RETRY_DELAY_MS : Nat := 2000

/-- One `inlineData` part payload of a Gemini response. -/
structure InlineData where
  mimeType : String
  data : String
deriving DecidableEq, Repr

/-- One part of a Gemini candidate response. -/
structure GemPart where
  text : Option String
  inlineData : Option InlineData
deriving DecidableEq, Repr

/-- The `content` object of a Gemini candidate; `parts` may be absent. -/
structure GemContent where
  parts : Option (List GemPart)
deriving DecidableEq, Repr

/-- One candidate of a Gemini response; `content` may be absent. -/
structure GemCandidate where
  content : Option GemContent
deriving DecidableEq, Repr

/-- A parsed Gemini response body; `candidates` may be absent
(`json.candidates ?? []`). -/
structure GemResponse where
  candidates : Option (List GemCandidate)
deriving DecidableEq, Repr

/-- storage.ts line 275: `c.content?.parts ?? []`. -/
def candParts (c : GemCandidate) : List GemPart :=
  match c.content with
  | none => []
  | some ct => ct.parts.getD []

/-- storage.ts line 276: JavaScript truthiness of `p.inlineData?.data`,
true when an inline payload exists and its data string is nonempty. -/
def partHasImage (p : GemPart) : Bool :=
  match p.inlineData with
  | some d => d.data != ""
  | none => false

/-- The inline data of a part, or the empty string when absent. -/
def partData (p : GemPart) : String :=
  match p.inlineData with
  | some d => d.data
  | none => ""

/-- storage.ts lines 275-289, inner loop: first part of one candidate
with inline image data.  Saving the decoded bytes to a local file is
abstracted away; the locator is identified with the image data it stores. -/
def firstImageInParts : List GemPart → Option String
  | [] => none
  | p :: rest =>
      match p.inlineData with
      | some d => if d.data = "" then firstImageInParts rest else some d.data
      | none => firstImageInParts rest

/-- storage.ts lines 274-290, outer loop: first image part across all
candidates, in order. -/
def firstImageInCands : List GemCandidate → Option String
  | [] => none
  | c :: rest =>
      match firstImageInParts (candParts c) with
      | some s => some s
      | none => firstImageInCands rest

/-- storage.ts lines 263-300: what a successful (2xx) response yields.
Empty candidate list returns null (line 266-272); otherwise the first
inline image across candidates, or null when none exists (line 299-300). -/
def extractImage (resp : GemResponse) : Option String :=
  let cands := resp.candidates.getD []
  if cands.isEmpty then none
  else firstImageInCands cands

/-- Outcome of one fetch attempt inside `generateWithImages`: a 2xx
response with a parsed body, a non-2xx response with its status, or a
thrown error (network failure; a body-parse failure inside the try block
is also modelled as `netError`). -/
inductive AttemptOutcome where
  | success (resp : GemResponse)
  | httpError (status : Nat)
  | netError
deriving DecidableEq, Repr

/-- storage.ts line 257: statuses retried when the retry budget allows,
429 or 500 and above. -/
def retryableStatus (s : Nat) : Bool :=
  s == 429 || decide (500 ≤ s)

/-- Trace of one `generateWithImages` invocation: the returned locator
(or null), the indices of the attempts executed in order, and the waits
performed before retries, in milliseconds. -/
structure GenRun where
  result : Option String
  attemptIdxs : List Nat
  waits : List Nat
deriving DecidableEq, Repr

/-- storage.ts lines 237-306: the `for (let attempt = 0; attempt <=
MAX_RETRIES; attempt++)` loop.  `fuel` counts the remaining iterations
(`MAX_RETRIES + 1 - attempt` at entry); the wait of `RETRY_DELAY_MS *
attempt` happens at the top of every iteration except the first
(line 239-242). -/
def genLoop (oracle : Nat → AttemptOutcome) : Nat → Nat → GenRun
  | _, 0 => { result := none, attemptIdxs := [], waits := [] }
  | attempt, fuel + 1 =>
      let w : List Nat := if attempt = 0 then [] else [RETRY_DELAY_MS * attempt]
      match oracle attempt with
      | .success resp =>
          { result := extractImage resp, attemptIdxs := [attempt], waits := w }
      | .httpError s =>
          if retryableStatus s ∧ attempt < MAX_RETRIES then
            let rest := genLoop oracle (attempt + 1) fuel
            { result := rest.result
              attemptIdxs := attempt :: rest.attemptIdxs
              waits := w ++ rest.waits }
          else { result := none, attemptIdxs := [attempt], waits := w }
      | .netError =>
          if attempt < MAX_RETRIES then
            let rest := genLoop oracle (attempt + 1) fuel
            { result := rest.result
              attemptIdxs := attempt :: rest.attemptIdxs
              waits := w ++ rest.waits }
          else { result := none, attemptIdxs := [attempt], waits := w }

/-- storage.ts lines 210-309: `generateWithImages`.  The prompt and image
payload do not influence control flow and are absorbed into the attempt
oracle; an empty API key returns null before any attempt (line 214-217). -/
def generateWithImages (apiKey : String) (oracle : Nat → AttemptOutcome) : GenRun :=
  if apiKey = "" then { result := none, attemptIdxs := [], waits := [] }
  else genLoop oracle 0 (MAX_RETRIES + 1)

/-! ### Environment selection (src/storage.ts lines 313-393) -/

/-- storage.ts lines 313-326: the fixed style-to-environment map. -/
def STYLE_ENVIRONMENTS : List (String × String) :=
  [("streetwear", "walking through a gritty downtown area with industrial buildings, chain-link fences, and raw concrete — shot like a hypebeast Instagram post"),
   ("minimalist", "standing in a clean Scandinavian-style apartment with floor-to-ceiling windows, neutral tones, and soft morning light filtering in"),
   ("athleisure", "leaving a trendy juice bar or gym entrance on a sunny day, casually holding a coffee — candid street style vibe"),
   ("vintage", "browsing through a thrift store or flea market with racks of clothes and warm tungsten lighting — effortlessly cool"),
   ("preppy", "walking across a manicured Ivy League campus with brick buildings and autumn leaves, or lounging at a country club patio"),
   ("y2k", "posing in a mirror selfie setup with LED strip lights, butterfly clips aesthetic, glossy surfaces, and a pink-tinted room"),
   ("dark academia", "sitting in a moody European café or old bookstore with wooden shelves, espresso, and rain on the windows outside"),
   ("cottagecore", "standing in a golden-hour flower field or a rustic farmhouse garden with a wicker basket — dreamy and soft-focus"),
   ("techwear", "walking through a wet city underpass at night with harsh overhead fluorescent lights, puddles reflecting neon, and utilitarian architecture"),
   ("old money", "stepping out of a luxury car onto a cobblestone European street, or on a yacht deck with the coastline behind — quiet luxury energy"),
   ("casual", "hanging out at a rooftop bar or a beach-side café with friends, golden hour sunlight, relaxed and effortless"),
   ("avant-garde", "posing in front of a brutalist concrete building or an abstract art installation — editorial, dramatic, high-fashion energy")]

/-- storage.ts line 330: the generic fallback environment. -/
def defaultEnvironment : String :=
  "a stylish, photogenic location with beautiful natural lighting"

/-- storage.ts lines 328-331: `getEnvironment`. -/
def getEnvironment (style : String) : String :=
  (STYLE_ENVIRONMENTS.lookup (jsTrim (lowerString style))).getD defaultEnvironment

/-- storage.ts line 373: `getEnvironment(style ?? outfitDescription)`,
the scene environment chosen inside `generateTryOn`. -/
def tryOnEnv (style : Option String) (outfitDescription : String) : String :=
  getEnvironment (style.getD outfitDescription)

/-! ### Pinterest bridge client (unnamed part_000 lines 83-121) -/

/-- Outcome of the single fetch inside `searchPinterest`: a 2xx response
with an optional outfits array, a non-2xx response, or a thrown error
(network failure, or the abort fired by the timeout timer). -/
inductive BridgeOutcome where
  | ok (outfits : Option (List PinterestOutfit))
  | httpError (status : Nat)
  | netError
deriving DecidableEq, Repr

/-- Trace of one `searchPinterest` invocation: the timeout armed for the
request, the number of fetch calls performed, and the returned list. -/
structure SearchRun where
  timeoutMs : Nat
  fetchCount : Nat
  result : List PinterestOutfit
deriving DecidableEq, Repr

/-- part_000 lines 83-121: `searchPinterest`.  One fetch is performed
with a timeout of 120000 ms when `fresh` and 30000 ms otherwise; a
non-2xx response or a thrown error yields the empty list, a 2xx response
yields `json.outfits ?? []`. -/
def searchPinterest (fresh : Bool) (outcome : BridgeOutcome) : SearchRun :=
  let timeoutMs : Nat := if fresh then 120000 else 30000
  match outcome with
  | .ok outfits => { timeoutMs := timeoutMs, fetchCount := 1, result := outfits.getD [] }
  | .httpError _ => { timeoutMs := timeoutMs, fetchCount := 1, result := [] }
  | .netError => { timeoutMs := timeoutMs, fetchCount := 1, result := [] }

/-! ### Concrete scenario inputs used by witnesses and counterexamples -/

/-- A profile with a photo and the style tags of the spec scenario. -/
def scenarioProfile : UserProfile :=
  { photoUri := some "file:///selfie.jpg"
    gender := none
    keywords := ["outfits"]
    brands := []
    styles := ["Streetwear", "Y2K"]
    onboarded := true }

/-- The candidate of the spec scenario, caption "best y2k streetwear look". -/
def scenarioOutfit : PinterestOutfit :=
  { imageUrl := "http://img.example/a.jpg"
    sourceUrl := "http://src.example/a.jpg"
    captionHint := "best y2k streetwear look"
    products := [] }

/-- Fixed metadata oracle value for concrete runs. -/
def defaultPostMeta : PostMeta :=
  { idSuffix := "0-abcd", likeCount := 50, commentCount := 0, createdAt := "t0" }

/-- A profile without a base photo. -/
def photolessProfile : UserProfile :=
  { photoUri := none
    gender := none
    keywords := []
    brands := []
    styles := []
    onboarded := false }

/-! ### Helper lemmas about the pipeline loop -/

lemma mkPost_captionHint (o : PinterestOutfit) (g : GenOutcome) (m : PostMeta) :
    (mkPost o g m).captionHint = o.captionHint := by
  cases g <;> rfl

lemma mkPost_products (o : PinterestOutfit) (g : GenOutcome) (m : PostMeta) :
    (mkPost o g m).products = o.products := by
  cases g <;> rfl

lemma mkPost_images (o : PinterestOutfit) (g : GenOutcome) (m : PostMeta) :
    (mkPost o g m).images =
      (match g with
       | .ok uri => [uri, refUrl o]
       | .failed => [refUrl o]
       | .threw => [refUrl o]) := by
  cases g <;> rfl

lemma mkPost_images_ne_nil (o : PinterestOutfit) (g : GenOutcome) (m : PostMeta) :
    (mkPost o g m).images ≠ [] := by
  cases g <;> simp [mkPost]

lemma runPosts_length (gen : Nat → GenOutcome) (meta : Nat → PostMeta) :
    ∀ (l : List PinterestOutfit) (i : Nat), (runPosts gen meta i l).length = l.length
  | [], _ => rfl
  | _ :: rest, i => by
      simp [runPosts, runPosts_length gen meta rest (i + 1)]

lemma runPosts_getElem (gen : Nat → GenOutcome) (meta : Nat → PostMeta) :
    ∀ (l : List PinterestOutfit) (i k : Nat),
      (runPosts gen meta i l)[k]? =
        (l[k]?).map (fun o => mkPost o (gen (i + k)) (meta (i + k)))
  | [], _, _ => by simp [runPosts]
  | o :: rest, i, 0 => by simp [runPosts]
  | o :: rest, i, k + 1 => by
      have h := runPosts_getElem gen meta rest (i + 1) k
      have harith : i + 1 + k = i + (k + 1) := by omega
      simp only [runPosts, List.getElem?_cons_succ, h, harith]

lemma runPosts_mem_images_ne_nil (gen : Nat → GenOutcome) (meta : Nat → PostMeta) :
    ∀ (l : List PinterestOutfit) (i : Nat) (p : OutfitPost),
      p ∈ runPosts gen meta i l → p.images ≠ []
  | [], _, p, hp => by simp [runPosts] at hp
  | o :: rest, i, p, hp => by
      rcases (by simpa [runPosts] using hp :
          p = mkPost o (gen i) (meta i) ∨ p ∈ runPosts gen meta (i + 1) rest) with h | h
      · exact h ▸ mkPost_images_ne_nil o (gen i) (meta i)
      · exact runPosts_mem_images_ne_nil gen meta rest (i + 1) p h

/-! ### Claims C1 to C5 -/

/-- C1: for every profile with a base photo and every non-empty candidate
list, `runPipeline` produces exactly one post per candidate, none dropped
or duplicated regardless of the generation outcome (including failure and
exception), in the order the candidates were received: position `k` of
the output carries the caption and products of candidate `k`. -/
theorem run_one_entry_per_candidate (profile : UserProfile)
    (outfits : List PinterestOutfit) (gen : Nat → GenOutcome) (meta : Nat → PostMeta)
    (h1 : photoPresent profile = true) (h2 : outfits ≠ []) :
    (runPipeline profile outfits gen meta).posts.length = outfits.length ∧
    ∀ k, k < outfits.length →
      ((runPipeline profile outfits gen meta).posts[k]?).map OutfitPost.captionHint
        = (outfits[k]?).map PinterestOutfit.captionHint ∧
      ((runPipeline profile outfits gen meta).posts[k]?).map OutfitPost.products
        = (outfits[k]?).map PinterestOutfit.products := by
  have hne : outfits.isEmpty = false := by
    simpa [List.isEmpty_iff] using h2
  refine ⟨?_, ?_⟩
  · simp [runPipeline, h1, hne, runPosts_length]
  · intro k hk
    have hg := runPosts_getElem gen meta outfits 0 k
    simp only [Nat.zero_add] at hg
    cases ho : outfits[k]? with
    | none => constructor <;> simp [runPipeline, h1, hne, hg, ho]
    | some o =>
        constructor <;>
          simp [runPipeline, h1, hne, hg, ho, mkPost_captionHint, mkPost_products]

/-- C1 witness at a concrete profile and a one-candidate list. -/
theorem run_one_entry_per_candidate_witness :
    (runPipeline scenarioProfile [scenarioOutfit] (fun _ => GenOutcome.failed)
        (fun _ => defaultPostMeta)).posts.length = [scenarioOutfit].length ∧
    ∀ k, k < [scenarioOutfit].length →
      ((runPipeline scenarioProfile [scenarioOutfit] (fun _ => GenOutcome.failed)
          (fun _ => defaultPostMeta)).posts[k]?).map OutfitPost.captionHint
        = ([scenarioOutfit][k]?).map PinterestOutfit.captionHint ∧
      ((runPipeline scenarioProfile [scenarioOutfit] (fun _ => GenOutcome.failed)
          (fun _ => defaultPostMeta)).posts[k]?).map OutfitPost.products
        = ([scenarioOutfit][k]?).map PinterestOutfit.products :=
  run_one_entry_per_candidate scenarioProfile [scenarioOutfit] _ _ (by decide) (by decide)

/-- C2: position `k` of the produced feed has image list
`[generated, sourceOrPrimary]` when the generation oracle succeeds for
candidate `k`, and `[sourceOrPrimary]` when it returns null or throws;
every produced post has a non-empty image list. -/
theorem compose_images_per_candidate (profile : UserProfile)
    (outfits : List PinterestOutfit) (gen : Nat → GenOutcome) (meta : Nat → PostMeta)
    (h1 : photoPresent profile = true) (k : Nat) (hk : k < outfits.length) :
    ((runPipeline profile outfits gen meta).posts[k]?).map OutfitPost.images
      = (outfits[k]?).map (fun o =>
          match gen k with
          | .ok uri => [uri, refUrl o]
          | .failed => [refUrl o]
          | .threw => [refUrl o]) ∧
    ∀ p ∈ (runPipeline profile outfits gen meta).posts, p.images ≠ [] := by
  have h2 : outfits ≠ [] := by
    intro h; rw [h] at hk; simp at hk
  have hne : outfits.isEmpty = false := by
    simpa [List.isEmpty_iff] using h2
  have hg := runPosts_getElem gen meta outfits 0 k
  simp only [Nat.zero_add] at hg
  constructor
  · cases ho : outfits[k]? with
    | none => simp [runPipeline, h1, hne, hg, ho]
    | some o =>
        cases hgk : gen k <;>
          simp [runPipeline, h1, hne, hg, ho, hgk, mkPost]
  · intro p hp
    refine runPosts_mem_images_ne_nil gen meta outfits 0 p ?_
    simpa [runPipeline, h1, hne] using hp

/-- C2 witness: concrete two-candidate run, success then failure. -/
theorem compose_images_per_candidate_witness :
    (((runPipeline scenarioProfile [scenarioOutfit, scenarioOutfit]
        (fun n => if n = 0 then GenOutcome.ok "file:///gen0.png" else GenOutcome.failed)
        (fun _ => defaultPostMeta)).posts[0]?).map OutfitPost.images
      = ([scenarioOutfit, scenarioOutfit][0]?).map (fun o =>
          match (if (0 : Nat) = 0 then GenOutcome.ok "file:///gen0.png" else GenOutcome.failed) with
          | .ok uri => [uri, refUrl o]
          | .failed => [refUrl o]
          | .threw => [refUrl o]) ∧
    ∀ p ∈ (runPipeline scenarioProfile [scenarioOutfit, scenarioOutfit]
        (fun n => if n = 0 then GenOutcome.ok "file:///gen0.png" else GenOutcome.failed)
        (fun _ => defaultPostMeta)).posts, p.images ≠ []) :=
  compose_images_per_candidate scenarioProfile [scenarioOutfit, scenarioOutfit]
    (fun n => if n = 0 then GenOutcome.ok "file:///gen0.png" else GenOutcome.failed)
    (fun _ => defaultPostMeta) (by decide) 0 (by decide)

/-- C3: with no base-photo reference the run fails with the
configuration-error message, emits zero posts, and the bridge search is
never reached. -/
theorem missing_photo_aborts (profile : UserProfile)
    (outfits : List PinterestOutfit) (gen : Nat → GenOutcome) (meta : Nat → PostMeta)
    (h : profile.photoUri = none) :
    (runPipeline profile outfits gen meta).posts = [] ∧
    (runPipeline profile outfits gen meta).error = some noPhotoMsg ∧
    (runPipeline profile outfits gen meta).fetchArgs = none ∧
    (runPipeline profile outfits gen meta).genArgs = [] := by
  have hp : photoPresent profile = false := by simp [photoPresent, h]
  simp [runPipeline, hp]

/-- C3 witness: a photo-less profile. -/
theorem missing_photo_aborts_witness :
    (runPipeline photolessProfile [scenarioOutfit]
        (fun _ => GenOutcome.failed) (fun _ => defaultPostMeta)).posts = [] ∧
    (runPipeline photolessProfile [scenarioOutfit]
        (fun _ => GenOutcome.failed) (fun _ => defaultPostMeta)).error = some noPhotoMsg ∧
    (runPipeline photolessProfile [scenarioOutfit]
        (fun _ => GenOutcome.failed) (fun _ => defaultPostMeta)).fetchArgs = none ∧
    (runPipeline photolessProfile [scenarioOutfit]
        (fun _ => GenOutcome.failed) (fun _ => defaultPostMeta)).genArgs = [] :=
  missing_photo_aborts _ _ _ _ rfl

/-- C4: an empty discovery result aborts the run with the
discovery-exhaustion message, which differs from the other failure
messages; zero posts are emitted and no generation call is made. -/
theorem empty_discovery_aborts (profile : UserProfile)
    (gen : Nat → GenOutcome) (meta : Nat → PostMeta)
    (h1 : photoPresent profile = true) :
    (runPipeline profile [] gen meta).posts = [] ∧
    (runPipeline profile [] gen meta).error = some noOutfitsMsg ∧
    (runPipeline profile [] gen meta).genArgs = [] ∧
    noOutfitsMsg ≠ noPhotoMsg ∧ noOutfitsMsg ≠ pipelineErrorMsg := by
  refine ⟨?_, ?_, ?_, by decide, by decide⟩ <;> simp [runPipeline, h1]

/-- C4 witness: a profile with a photo and an empty bridge result. -/
theorem empty_discovery_aborts_witness :
    (runPipeline scenarioProfile [] (fun _ => GenOutcome.failed)
        (fun _ => defaultPostMeta)).posts = [] ∧
    (runPipeline scenarioProfile [] (fun _ => GenOutcome.failed)
        (fun _ => defaultPostMeta)).error = some noOutfitsMsg ∧
    (runPipeline scenarioProfile [] (fun _ => GenOutcome.failed)
        (fun _ => defaultPostMeta)).genArgs = [] ∧
    noOutfitsMsg ≠ noPhotoMsg ∧ noOutfitsMsg ≠ pipelineErrorMsg :=
  empty_discovery_aborts scenarioProfile _ _ (by decide)

/-- C5 counterexample: in the pinned scenario, style tags
["Streetwear", "Y2K"] against the caption "best y2k streetwear look",
the style passed to the generation call is "Streetwear" (the first tag in
tag-list order that matches case-insensitively), not "Y2K" as the claim
asserts. -/
theorem style_scenario_counterexample :
    ((runPipeline scenarioProfile [scenarioOutfit] (fun _ => GenOutcome.failed)
        (fun _ => defaultPostMeta)).genArgs.map GenArgs.style) = [some "Streetwear"] ∧
    (some "Streetwear" : Option String) ≠ some "Y2K" := by
  constructor
  · decide
  · decide

/-- C5 amended: for each candidate the style passed to the generation
call is the first of the profile style tags occurring case-insensitively
in the candidate caption, falling back to the first tag, and to no hint
when there are no tags; in the pinned scenario the selected tag is
"Streetwear", the first tag in tag-list order that matches. -/
theorem style_selection_amended (profile : UserProfile)
    (outfits : List PinterestOutfit) (gen : Nat → GenOutcome) (meta : Nat → PostMeta)
    (h1 : photoPresent profile = true) (k : Nat) (hk : k < outfits.length) :
    ((runPipeline profile outfits gen meta).genArgs[k]?).map GenArgs.style
      = (outfits[k]?).map (fun o => pickOutfitStyle profile.styles o.captionHint) ∧
    (∀ caption, pickOutfitStyle [] caption = none) ∧
    ((runPipeline scenarioProfile [scenarioOutfit] gen meta).genArgs.map GenArgs.style)
      = [some "Streetwear"] := by
  have h2 : outfits ≠ [] := by
    intro h; rw [h] at hk; simp at hk
  have hne : outfits.isEmpty = false := by
    simpa [List.isEmpty_iff] using h2
  refine ⟨?_, ?_, ?_⟩
  · cases ho : outfits[k]? with
    | none => simp [runPipeline, h1, hne, ho]
    | some o => simp [runPipeline, h1, hne, ho, mkGenArgs]
  · intro caption; rfl
  · rfl

/-- C5 amended witness: concrete run of the pinned scenario. -/
theorem style_selection_amended_witness :
    ((runPipeline scenarioProfile [scenarioOutfit] (fun _ => GenOutcome.failed)
        (fun _ => defaultPostMeta)).genArgs[0]?).map GenArgs.style
      = ([scenarioOutfit][0]?).map (fun o => pickOutfitStyle scenarioProfile.styles o.captionHint) ∧
    (∀ caption, pickOutfitStyle [] caption = none) ∧
    ((runPipeline scenarioProfile [scenarioOutfit] (fun _ => GenOutcome.failed)
        (fun _ => defaultPostMeta)).genArgs.map GenArgs.style) = [some "Streetwear"] :=
  style_selection_amended scenarioProfile [scenarioOutfit] _ _ (by decide) 0 (by decide)

/-! ### Claims C6 and C7: the Gemini retry loop and response scanning -/

/-- An attempt outcome after which the loop retries when budget remains:
a non-2xx response with status 429 or at least 500, or a thrown error. -/
def transientFailure (o : AttemptOutcome) : Prop :=
  (∃ s, o = .httpError s ∧ retryableStatus s = true) ∨ o = .netError

/-- Structural invariant of the retry loop: attempts are consecutive
indices starting at the entry attempt, bounded by the fuel; the waits
are exactly `RETRY_DELAY_MS * attempt` for every executed attempt other
than attempt 0; and every attempt that is followed by another one ended
in a transient failure. -/
lemma genLoop_shape (oracle : Nat → AttemptOutcome) :
    ∀ (fuel a : Nat),
      (genLoop oracle a fuel).attemptIdxs
          = List.range' a (genLoop oracle a fuel).attemptIdxs.length ∧
      (genLoop oracle a fuel).attemptIdxs.length ≤ fuel ∧
      (genLoop oracle a fuel).waits
          = (genLoop oracle a fuel).attemptIdxs.filterMap
              (fun i => if i = 0 then none else some (RETRY_DELAY_MS * i)) ∧
      (∀ i, a ≤ i → (i + 1) ∈ (genLoop oracle a fuel).attemptIdxs →
          transientFailure (oracle i))
  | 0, a => by
      simp [genLoop]
  | fuel + 1, a => by
      have step :
          ∀ (res : Option String) (r : GenRun),
            r = { result := res, attemptIdxs := [a],
                  waits := if a = 0 then [] else [RETRY_DELAY_MS * a] } →
            r.attemptIdxs = List.range' a r.attemptIdxs.length ∧
            r.attemptIdxs.length ≤ fuel + 1 ∧
            r.waits = r.attemptIdxs.filterMap
              (fun i => if i = 0 then none else some (RETRY_DELAY_MS * i)) ∧
            (∀ i, a ≤ i → (i + 1) ∈ r.attemptIdxs → transientFailure (oracle i)) := by
        rintro res r rfl
        refine ⟨by simp [List.range'], by simp, ?_, ?_⟩
        · by_cases ha : a = 0 <;> simp [ha]
        · intro i hi hmem
          simp only [List.mem_singleton] at hmem
          omega
      have recur :
          ∀ r : GenRun, transientFailure (oracle a) →
            r = { result := (genLoop oracle (a + 1) fuel).result,
                  attemptIdxs := a :: (genLoop oracle (a + 1) fuel).attemptIdxs,
                  waits := (if a = 0 then [] else [RETRY_DELAY_MS * a])
                    ++ (genLoop oracle (a + 1) fuel).waits } →
            r.attemptIdxs = List.range' a r.attemptIdxs.length ∧
            r.attemptIdxs.length ≤ fuel + 1 ∧
            r.waits = r.attemptIdxs.filterMap
              (fun i => if i = 0 then none else some (RETRY_DELAY_MS * i)) ∧
            (∀ i, a ≤ i → (i + 1) ∈ r.attemptIdxs → transientFailure (oracle i)) := by
        rintro r htrans rfl
        obtain ⟨ih1, ih2, ih3, ih4⟩ := genLoop_shape oracle fuel (a + 1)
        refine ⟨?_, by simpa using ih2, ?_, ?_⟩
        · simp only [List.length_cons, List.range'_succ]
          exact congrArg (a :: ·) ih1
        · by_cases ha : a = 0
          · subst ha; simp [ih3]
          · simp [ha, ih3]
        · intro i hi hmem
          rcases List.mem_cons.mp hmem with h | h
          · omega
          · rcases Nat.lt_or_ge a i with hlt | hge
            · exact ih4 i hlt h
            · have : i = a := by omega
              exact this ▸ htrans
      cases ho : oracle a with
      | success resp =>
          exact step (extractImage resp) (genLoop oracle a (fuel + 1))
            (by simp [genLoop, ho])
      | httpError s =>
          by_cases hguard : retryableStatus s ∧ a < MAX_RETRIES
          · exact recur (genLoop oracle a (fuel + 1))
              (Or.inl ⟨s, ho, hguard.1⟩) (by simp [genLoop, ho, hguard])
          · exact step none (genLoop oracle a (fuel + 1))
              (by simp [genLoop, ho, hguard])
      | netError =>
          by_cases hguard : a < MAX_RETRIES
          · exact recur (genLoop oracle a (fuel + 1))
              (Or.inr ho) (by simp [genLoop, ho, hguard])
          · exact step none (genLoop oracle a (fuel + 1))
              (by simp [genLoop, ho, hguard])

/-- C6 amended: the retry loop executes consecutive attempts 0, 1, ...
bounded by two retries (three attempts); before every retry (and only
then) it waits attempt-index times 2000 ms; an attempt is followed by
another one only when it failed transiently, where transient means HTTP
status 429 or at least 500, or a thrown network error; a non-transient
HTTP failure on the first attempt returns null immediately after a single
attempt with no wait; and a run whose three attempts all fail transiently
returns null after exactly the attempts 0, 1, 2 with waits 2000 and
4000 ms. -/
theorem retry_policy_amended (key : String) (hkey : key ≠ "")
    (oracle : Nat → AttemptOutcome) :
    (generateWithImages key oracle).attemptIdxs
        = List.range (generateWithImages key oracle).attemptIdxs.length ∧
    (generateWithImages key oracle).attemptIdxs.length ≤ MAX_RETRIES + 1 ∧
    (generateWithImages key oracle).waits
        = (generateWithImages key oracle).attemptIdxs.filterMap
            (fun i => if i = 0 then none else some (RETRY_DELAY_MS * i)) ∧
    (∀ i, (i + 1) ∈ (generateWithImages key oracle).attemptIdxs →
        transientFailure (oracle i)) ∧
    (∀ s, oracle 0 = .httpError s → retryableStatus s = false →
        generateWithImages key oracle
          = { result := none, attemptIdxs := [0], waits := [] }) ∧
    ((∀ a, a ≤ MAX_RETRIES → transientFailure (oracle a)) →
        (generateWithImages key oracle).result = none ∧
        (generateWithImages key oracle).attemptIdxs = [0, 1, 2] ∧
        (generateWithImages key oracle).waits
          = [RETRY_DELAY_MS * 1, RETRY_DELAY_MS * 2]) := by
  have hunfold : generateWithImages key oracle = genLoop oracle 0 (MAX_RETRIES + 1) := by
    simp [generateWithImages, hkey]
  obtain ⟨s1, s2, s3, s4⟩ := genLoop_shape oracle (MAX_RETRIES + 1) 0
  refine ⟨?_, ?_, ?_, ?_, ?_, ?_⟩
  · rw [hunfold, List.range_eq_range']; exact s1
  · rw [hunfold]; exact s2
  · rw [hunfold]; exact s3
  · intro i hmem
    exact s4 i (Nat.zero_le i) (by rwa [hunfold] at hmem)
  · intro s h0 hns
    rw [hunfold]
    simp [genLoop, h0, hns, MAX_RETRIES]
  · intro hall
    have t0 := hall 0 (by simp [MAX_RETRIES])
    have t1 := hall 1 (by simp [MAX_RETRIES])
    have t2 := hall 2 (by simp [MAX_RETRIES])
    have hun3 : generateWithImages key oracle = genLoop oracle 0 3 := hunfold
    clear hunfold s1 s2 s3 s4 hall
    rw [hun3]
    rcases t0 with ⟨s0, h0, r0⟩ | h0 <;> rcases t1 with ⟨s1, h1, r1⟩ | h1 <;>
      rcases t2 with ⟨s2, h2, r2⟩ | h2 <;>
        refine ⟨?_, ?_, ?_⟩ <;>
          simp [genLoop, MAX_RETRIES, RETRY_DELAY_MS, *]

/-- C6 witness: a run whose attempts all hit HTTP 429. -/
theorem retry_policy_amended_witness :
    (generateWithImages "key" (fun _ => AttemptOutcome.httpError 429)).attemptIdxs
        = List.range (generateWithImages "key"
            (fun _ => AttemptOutcome.httpError 429)).attemptIdxs.length ∧
    (generateWithImages "key" (fun _ => AttemptOutcome.httpError 429)).attemptIdxs.length
        ≤ MAX_RETRIES + 1 ∧
    (generateWithImages "key" (fun _ => AttemptOutcome.httpError 429)).waits
        = (generateWithImages "key"
            (fun _ => AttemptOutcome.httpError 429)).attemptIdxs.filterMap
            (fun i => if i = 0 then none else some (RETRY_DELAY_MS * i)) ∧
    (∀ i, (i + 1) ∈ (generateWithImages "key"
        (fun _ => AttemptOutcome.httpError 429)).attemptIdxs →
        transientFailure ((fun _ => AttemptOutcome.httpError 429) i)) ∧
    (∀ s, (fun _ => AttemptOutcome.httpError 429) 0 = AttemptOutcome.httpError s →
        retryableStatus s = false →
        generateWithImages "key" (fun _ => AttemptOutcome.httpError 429)
          = { result := none, attemptIdxs := [0], waits := [] }) ∧
    ((∀ a, a ≤ MAX_RETRIES → transientFailure ((fun _ => AttemptOutcome.httpError 429) a)) →
        (generateWithImages "key" (fun _ => AttemptOutcome.httpError 429)).result = none ∧
        (generateWithImages "key" (fun _ => AttemptOutcome.httpError 429)).attemptIdxs
          = [0, 1, 2] ∧
        (generateWithImages "key" (fun _ => AttemptOutcome.httpError 429)).waits
          = [RETRY_DELAY_MS * 1, RETRY_DELAY_MS * 2]) :=
  retry_policy_amended "key" (by decide) (fun _ => AttemptOutcome.httpError 429)

/-- A response whose single candidate carries one inline image. -/
def imageResponse : GemResponse :=
  { candidates := some
      [{ content := some
          { parts := some
              [{ text := none,
                 inlineData := some { mimeType := "image/png", data := "IMG" } }] } }] }

/-- An attempt oracle that throws on the first attempt and succeeds with
an image on the second. -/
def netThenSuccess : Nat → AttemptOutcome :=
  fun n => if n = 0 then .netError else .success imageResponse

/-- C6 counterexample: the claim says a failed attempt is retried only
when the HTTP response status is 429 or at least 500; but when the first
attempt throws a network error (no HTTP status at all) the code also
retries, and here the retry succeeds; so the run performs two attempts
although no attempt returned a transient HTTP status. -/
theorem retry_policy_counterexample :
    (generateWithImages "key" netThenSuccess).attemptIdxs = [0, 1] ∧
    (∀ s, netThenSuccess 0 ≠ AttemptOutcome.httpError s) ∧
    (generateWithImages "key" netThenSuccess).result = some "IMG" := by
  refine ⟨by decide, ?_, by decide⟩
  intro s h
  exact AttemptOutcome.noConfusion h

/-- All parts of a candidate list, in candidate order then part order. -/
def allParts : List GemCandidate → List GemPart
  | [] => []
  | c :: rest => candParts c ++ allParts rest

lemma firstImageInParts_eq_find (ps : List GemPart) :
    firstImageInParts ps = (ps.find? partHasImage).map partData := by
  induction ps with
  | nil => rfl
  | cons p rest ih =>
      cases hp : p.inlineData with
      | none =>
          have hneg : ¬ (partHasImage p = true) := by simp [partHasImage, hp]
          simp [firstImageInParts, hp, List.find?_cons_of_neg _ hneg, ih]
      | some d =>
          by_cases hd : d.data = ""
          · have hneg : ¬ (partHasImage p = true) := by simp [partHasImage, hp, hd]
            simp [firstImageInParts, hp, hd, List.find?_cons_of_neg _ hneg, ih]
          · have hpos : partHasImage p = true := by simp [partHasImage, hp, hd]
            simp [firstImageInParts, hp, hd, List.find?_cons_of_pos _ hpos, partData]

lemma firstImageInCands_eq_find (cs : List GemCandidate) :
    firstImageInCands cs = ((allParts cs).find? partHasImage).map partData := by
  induction cs with
  | nil => rfl
  | cons c rest ih =>
      cases h : (candParts c).find? partHasImage with
      | none =>
          simp [firstImageInCands, allParts, List.find?_append,
            firstImageInParts_eq_find, ih, h, Option.or]
      | some x =>
          simp [firstImageInCands, allParts, List.find?_append,
            firstImageInParts_eq_find, ih, h, Option.or]

lemma extractImage_eq_find (resp : GemResponse) :
    extractImage resp
      = ((allParts (resp.candidates.getD [])).find? partHasImage).map partData := by
  unfold extractImage
  cases hc : resp.candidates.getD [] with
  | nil => simp [allParts]
  | cons c rest => simp [firstImageInCands_eq_find]

/-- The two-candidate scenario response: the first candidate has only a
text part, the second carries an inline image. -/
def scenarioTwoCandidates : GemResponse :=
  { candidates := some
      [{ content := some
          { parts := some [{ text := some "here is a description", inlineData := none }] } },
       { content := some
          { parts := some
              [{ text := none,
                 inlineData := some { mimeType := "image/png", data := "IMG2" } }] } }] }

/-- C7: on a 2xx response the client performs one attempt and returns the
data of the first part with non-empty inline image data, scanning
candidates in order and parts in order within each candidate, and null
when no such part exists; in the two-candidate scenario where only the
second candidate carries an image, that image is returned. -/
theorem response_scanning (key : String) (hkey : key ≠ "") (resp : GemResponse) :
    (generateWithImages key (fun _ => AttemptOutcome.success resp)).attemptIdxs = [0] ∧
    (generateWithImages key (fun _ => AttemptOutcome.success resp)).result
        = ((allParts (resp.candidates.getD [])).find? partHasImage).map partData ∧
    (generateWithImages key
        (fun _ => AttemptOutcome.success scenarioTwoCandidates)).result = some "IMG2" := by
  refine ⟨?_, ?_, ?_⟩
  · simp [generateWithImages, hkey, genLoop, MAX_RETRIES]
  · simp [generateWithImages, hkey, genLoop, MAX_RETRIES, extractImage_eq_find]
  · simp [generateWithImages, hkey, genLoop, MAX_RETRIES]
    decide

/-- C7 witness: the scenario response under a concrete key. -/
theorem response_scanning_witness :
    (generateWithImages "key"
        (fun _ => AttemptOutcome.success scenarioTwoCandidates)).attemptIdxs = [0] ∧
    (generateWithImages "key"
        (fun _ => AttemptOutcome.success scenarioTwoCandidates)).result
        = ((allParts (scenarioTwoCandidates.candidates.getD [])).find? partHasImage).map
            partData ∧
    (generateWithImages "key"
        (fun _ => AttemptOutcome.success scenarioTwoCandidates)).result = some "IMG2" :=
  response_scanning "key" (by decide) scenarioTwoCandidates

/-! ### Claim C8: the bridge client -/

/-- C8: `searchPinterest` performs exactly one fetch, armed with a
30000 ms timeout when forceRefresh is false and a 120000 ms timeout when
it is true; a non-2xx response or a thrown error (network failure or the
abort fired by the timeout) yields the empty list instead of an
exception. -/
theorem bridge_timeout_and_failures (fresh : Bool) (outcome : BridgeOutcome) :
    (searchPinterest fresh outcome).fetchCount = 1 ∧
    (searchPinterest false outcome).timeoutMs = 30000 ∧
    (searchPinterest true outcome).timeoutMs = 120000 ∧
    (∀ s, (searchPinterest fresh (.httpError s)).result = []) ∧
    (searchPinterest fresh .netError).result = [] := by
  refine ⟨?_, ?_, ?_, ?_, ?_⟩ <;>
    cases outcome <;> simp [searchPinterest]

/-- C8 witness: a fresh request that times out. -/
theorem bridge_timeout_and_failures_witness :
    (searchPinterest true BridgeOutcome.netError).fetchCount = 1 ∧
    (searchPinterest false BridgeOutcome.netError).timeoutMs = 30000 ∧
    (searchPinterest true BridgeOutcome.netError).timeoutMs = 120000 ∧
    (∀ s, (searchPinterest true (.httpError s)).result = []) ∧
    (searchPinterest true BridgeOutcome.netError).result = [] :=
  bridge_timeout_and_failures true BridgeOutcome.netError

/-! ### Claim C10: environment selection without a style hint -/

/-- C10: when `generateTryOn` receives no style hint, the scene
environment is the lookup of the lowercased and trimmed outfit
description in the fixed style map: a description equal to a known style
name such as "Y2K" selects that style environment, which differs from the
generic default; only a description matching no style name yields the
generic photogenic-location default. -/
theorem environment_from_description (desc : String)
    (h : STYLE_ENVIRONMENTS.lookup (jsTrim (lowerString desc)) = none) :
    (∀ d, tryOnEnv none d = getEnvironment d) ∧
    tryOnEnv none "Y2K"
      = "posing in a mirror selfie setup with LED strip lights, butterfly clips aesthetic, glossy surfaces, and a pink-tinted room" ∧
    tryOnEnv none "Y2K" ≠ defaultEnvironment ∧
    tryOnEnv none desc = defaultEnvironment := by
  refine ⟨fun d => rfl, by decide, by decide, ?_⟩
  simp [tryOnEnv, getEnvironment, h]

/-- C10 witness: a description that matches no style name. -/
theorem environment_from_description_witness :
    (∀ d, tryOnEnv none d = getEnvironment d) ∧
    tryOnEnv none "Y2K"
      = "posing in a mirror selfie setup with LED strip lights, butterfly clips aesthetic, glossy surfaces, and a pink-tinted room" ∧
    tryOnEnv none "Y2K" ≠ defaultEnvironment ∧
    tryOnEnv none "plain denim look" = defaultEnvironment :=
  environment_from_description "plain denim look" (by decide)

/-! ### Claim C9: progress monotonicity -/

lemma natCast_pos_of_ne_zero {n : Nat} (hn : n ≠ 0) : (0 : ℚ) < (n : ℚ) := by
  exact_mod_cast Nat.pos_of_ne_zero hn

lemma candidateProgress_strictMono (n : Nat) (hn : n ≠ 0) {j k : Nat} (h : j < k) :
    candidateProgress n j < candidateProgress n k := by
  have hnpos := natCast_pos_of_ne_zero hn
  have hjk : ((j : ℚ) + 1) < ((k : ℚ) + 1) := by exact_mod_cast Nat.succ_lt_succ h
  have hdiv : ((j : ℚ) + 1) / (n : ℚ) < ((k : ℚ) + 1) / (n : ℚ) :=
    div_lt_div_of_pos_right hjk hnpos
  unfold candidateProgress
  nlinarith [hdiv]

lemma candidateProgress_le_95 (n k : Nat) (hk : k < n) :
    candidateProgress n k ≤ 95 / 100 := by
  have hnpos : (0 : ℚ) < (n : ℚ) := natCast_pos_of_ne_zero (by omega)
  have h1 : ((k : ℚ) + 1) / (n : ℚ) ≤ 1 := by
    rw [div_le_one hnpos]
    exact_mod_cast hk
  unfold candidateProgress
  nlinarith [h1]

lemma candidateProgress_gt_15 (n k : Nat) (hn : n ≠ 0) :
    15 / 100 < candidateProgress n k := by
  have hnpos := natCast_pos_of_ne_zero hn
  have hx : (0 : ℚ) < ((k : ℚ) + 1) / (n : ℚ) := by positivity
  unfold candidateProgress
  nlinarith [hx]

/-- C9: in a run that reaches the compose stage, the reported progress
values are exactly 0.05, 0.15, then one value per completed candidate,
then 1; the trace is monotonically non-decreasing, the per-candidate
values are strictly increasing, every value before the last is below 1,
and the value 1 is reported exactly once, as the final event after the
last candidate. -/
theorem progress_monotone (profile : UserProfile) (outfits : List PinterestOutfit)
    (gen : Nat → GenOutcome) (meta : Nat → PostMeta)
    (h1 : photoPresent profile = true) (h2 : outfits ≠ []) :
    (runPipeline profile outfits gen meta).progressEvents
        = [5 / 100, 15 / 100]
            ++ (List.range outfits.length).map (candidateProgress outfits.length)
            ++ [1] ∧
    List.Chain' (· ≤ ·) (runPipeline profile outfits gen meta).progressEvents ∧
    ((List.range outfits.length).map
        (candidateProgress outfits.length)).Pairwise (· < ·) ∧
    (∀ x ∈ (runPipeline profile outfits gen meta).progressEvents.dropLast, x < 1) ∧
    (runPipeline profile outfits gen meta).progressEvents.getLast? = some 1 := by
  have hne : outfits.isEmpty = false := by
    simpa [List.isEmpty_iff] using h2
  have hN : outfits.length ≠ 0 := by
    simpa [List.length_eq_zero] using h2
  set N := outfits.length with hNdef
  set L : List ℚ := (List.range N).map (candidateProgress N) with hLdef
  have hevs : (runPipeline profile outfits gen meta).progressEvents
      = [5 / 100, 15 / 100] ++ L ++ [1] := by
    simp [runPipeline, h1, hne, hLdef]
  have hLlt : L.Pairwise (· < ·) :=
    (List.pairwise_lt_range N).map (candidateProgress N)
      (fun _ _ hab => candidateProgress_strictMono N hN hab)
  have hmemL : ∀ x ∈ L, 15 / 100 < x ∧ x ≤ 95 / 100 := by
    intro x hx
    obtain ⟨k, hk, rfl⟩ := List.mem_map.mp hx
    exact ⟨candidateProgress_gt_15 N k hN,
      candidateProgress_le_95 N k (List.mem_range.mp hk)⟩
  have hpw : List.Pairwise (· ≤ ·) (([5 / 100, 15 / 100] : List ℚ) ++ L ++ [1]) := by
    rw [List.append_assoc]
    refine List.pairwise_append.mpr ⟨?_, ?_, ?_⟩
    · refine List.pairwise_cons.mpr ⟨?_, by simp⟩
      intro b hb
      simp only [List.mem_singleton] at hb
      rw [hb]; norm_num
    · refine List.pairwise_append.mpr ⟨hLlt.imp le_of_lt, by simp, ?_⟩
      intro x hx y hy
      simp only [List.mem_singleton] at hy
      subst hy
      linarith [(hmemL x hx).2]
    · intro a ha b hb
      have ha15 : a ≤ 15 / 100 := by
        rcases (by simpa using ha : a = 5 / 100 ∨ a = 15 / 100) with ha | ha
        · rw [ha]; norm_num
        · rw [ha]
      rcases List.mem_append.mp hb with hbL | hb1
      · linarith [(hmemL b hbL).1]
      · have : b = 1 := by simpa using hb1
        rw [this]; linarith
  refine ⟨hevs, ?_, hLlt, ?_, ?_⟩
  · rw [hevs]
    exact hpw.chain'
  · intro x hx
    rw [hevs, List.dropLast_concat] at hx
    rcases List.mem_append.mp hx with hx2 | hxL
    · rcases (by simpa using hx2 : x = 5 / 100 ∨ x = 15 / 100) with h | h <;>
        rw [h] <;> norm_num
    · linarith [(hmemL x hxL).2]
  · rw [hevs]
    exact List.getLast?_concat _

/-- C9 witness: a concrete single-candidate run. -/
theorem progress_monotone_witness :
    (runPipeline scenarioProfile [scenarioOutfit] (fun _ => GenOutcome.failed)
        (fun _ => defaultPostMeta)).progressEvents
        = [5 / 100, 15 / 100]
            ++ (List.range [scenarioOutfit].length).map
                (candidateProgress [scenarioOutfit].length)
            ++ [1] ∧
    List.Chain' (· ≤ ·)
      (runPipeline scenarioProfile [scenarioOutfit] (fun _ => GenOutcome.failed)
        (fun _ => defaultPostMeta)).progressEvents ∧
    ((List.range [scenarioOutfit].length).map
        (candidateProgress [scenarioOutfit].length)).Pairwise (· < ·) ∧
    (∀ x ∈ (runPipeline scenarioProfile [scenarioOutfit] (fun _ => GenOutcome.failed)
        (fun _ => defaultPostMeta)).progressEvents.dropLast, x < 1) ∧
    (runPipeline scenarioProfile [scenarioOutfit] (fun _ => GenOutcome.failed)
        (fun _ => defaultPostMeta)).progressEvents.getLast? = some 1 :=
  progress_monotone scenarioProfile [scenarioOutfit] _ _ (by decide) (by decide)

end Fitscroll
